import Mathlib

/-!
Verification of the Pic2Product catalog indexing and recommendation
pipeline (files `mvp_reco.py` and `api.py`) against its specification.

The Python code is shallowly embedded:
  - pure functions become Lean functions;
  - the mutable module-level `state` object of `api.py` becomes explicit
    state passing over an `ApiState` record;
  - the file system and the external ML models (CLIP encoder, YOLO
    detector) are parameters: an image or a text is encoded by an
    arbitrary function, and file existence is an arbitrary predicate;
  - floating point numbers are modelled by exact numbers: abstract scores
    and embedding entries by `Int` or `Rat`, and the cosine-similarity
    arithmetic of `cos_sim` by real numbers;
  - a Python exception becomes an `Except` error value, and the state at
    the moment the exception escapes is returned alongside it.
-/

namespace Pic2Product

/-! ## Data model

`CsvRow` is one record of `catalog.csv` (the four required columns).
`CatalogRow` is the dictionary appended to `rows` by
`mvp_reco.load_catalog` (lines 96-102): the csv fields plus the resolved
image path and the derived text. -/

structure CsvRow where
  sku_id : String
  title : String
  brand : String
  image_path : String
deriving Repr, DecidableEq

structure CatalogRow where
  sku_id : String
  title : String
  brand : String
  image_path : String
  text : String
deriving Repr, DecidableEq

/-- The `ClipEncoder` of `mvp_reco.py`, reduced to its two methods.
`encode_image` is keyed by the path of the image it opens (opening a
file at a fixed path is deterministic), `encode_text` by the text. -/
structure Clip (V : Type) where
  encode_image : String → V
  encode_text : String → V

/-- The value returned by `mvp_reco.load_catalog`: the three parallel
sequences.  A matrix is the list of its rows (`np.vstack` of the
per-row embeddings). -/
structure Catalog (V : Type) where
  rows : List CatalogRow
  img_embs : List V
  txt_embs : List V
deriving Repr, DecidableEq

/-- Errors raised by `load_catalog` (RuntimeError messages in the
source, lines 67, 71 and 105). -/
inductive BuildErr where
  | noHeader
  | missingCols
  | catalogEmpty
deriving Repr, DecidableEq

/-- `Path(csv_path).parent / img_path` (line 82): `dir` stands for the
parent directory of the csv file. -/
def resolvePath (dir : String) (rel : String) : String :=
  dir ++ "/" ++ rel

/-- Python `str.strip()`: drop leading and trailing whitespace.
Written over the character list so that it evaluates on concrete
strings. -/
def stripStr (s : String) : String :=
  ⟨((s.data.dropWhile Char.isWhitespace).reverse.dropWhile
      Char.isWhitespace).reverse⟩

/-- The derived text `f"{brand} {title}".strip()` (line 89). -/
def rowText (r : CsvRow) : String :=
  stripStr (r.brand ++ " " ++ r.title)

/-- The dictionary appended to `rows` (lines 96-102). -/
def mkCatalogRow (dir : String) (r : CsvRow) : CatalogRow :=
  { sku_id := r.sku_id, title := r.title, brand := r.brand,
    image_path := resolvePath dir r.image_path, text := rowText r }

/-- The loop of `load_catalog` (lines 76-102): each csv row whose image
resolves (`p.exists()`) contributes, in order, one entry to each of the
three lists; a row whose image does not resolve is skipped from all
three.  `fs` is the file-existence predicate of the file system. -/
def buildTriple {V : Type} (clip : Clip V) (fs : String → Bool)
    (dir : String) : List CsvRow → List CatalogRow × List V × List V
  | [] => ([], [], [])
  | r :: rest =>
    let (rows, ies, tes) := buildTriple clip fs dir rest
    if fs (resolvePath dir r.image_path) then
      (mkCatalogRow dir r :: rows,
       clip.encode_image (resolvePath dir r.image_path) :: ies,
       clip.encode_text (rowText r) :: tes)
    else
      (rows, ies, tes)

/-- `mvp_reco.load_catalog` (lines 63-111).  `header` is
`reader.fieldnames` (`none` when the csv has no header row). -/
def load_catalog {V : Type} (clip : Clip V) (fs : String → Bool)
    (dir : String) (header : Option (List String))
    (rows_csv : List CsvRow) : Except BuildErr (Catalog V) :=
  match header with
  | none => .error .noHeader
  | some names =>
    if ["sku_id", "title", "brand", "image_path"].all (names.contains ·) then
      let (rows, ies, tes) := buildTriple clip fs dir rows_csv
      if rows.isEmpty then .error .catalogEmpty
      else .ok { rows := rows, img_embs := ies, txt_embs := tes }
    else .error .missingCols

/-! ### Characterisation of the build loop -/

theorem buildTriple_rows {V : Type} (clip : Clip V) (fs : String → Bool)
    (dir : String) (l : List CsvRow) :
    (buildTriple clip fs dir l).1 =
      (l.filter (fun r => fs (resolvePath dir r.image_path))).map
        (mkCatalogRow dir) := by
  induction l with
  | nil => rfl
  | cons r rest ih =>
    simp only [buildTriple, List.filter_cons]
    by_cases h : fs (resolvePath dir r.image_path) <;> simp [h, ih]

theorem buildTriple_img {V : Type} (clip : Clip V) (fs : String → Bool)
    (dir : String) (l : List CsvRow) :
    (buildTriple clip fs dir l).2.1 =
      (buildTriple clip fs dir l).1.map
        (fun row => clip.encode_image row.image_path) := by
  induction l with
  | nil => rfl
  | cons r rest ih =>
    simp only [buildTriple]
    by_cases h : fs (resolvePath dir r.image_path) <;>
      simp [h, ih, mkCatalogRow]

theorem buildTriple_txt {V : Type} (clip : Clip V) (fs : String → Bool)
    (dir : String) (l : List CsvRow) :
    (buildTriple clip fs dir l).2.2 =
      (buildTriple clip fs dir l).1.map
        (fun row => clip.encode_text row.text) := by
  induction l with
  | nil => rfl
  | cons r rest ih =>
    simp only [buildTriple]
    by_cases h : fs (resolvePath dir r.image_path) <;>
      simp [h, ih, mkCatalogRow]

/-- C1 -- For every successfully built catalog index, the three parallel
sequences are aligned: `rows`, `img_embs` and `txt_embs` have the same
length, row `i` of the metadata is the row whose image embedding is row
`i` of `img_embs` (the encoding of the resolved image path of that row) and
whose text embedding is row `i` of `txt_embs` (the encoding of the
derived text of that row), and rows with unresolvable images are skipped
from all three sequences together. -/
theorem c1_alignment_invariant {V : Type} (clip : Clip V)
    (fs : String → Bool) (dir : String) (header : Option (List String))
    (rows_csv : List CsvRow) (c : Catalog V)
    (h : load_catalog clip fs dir header rows_csv = .ok c) :
    c.rows.length = c.img_embs.length ∧
    c.rows.length = c.txt_embs.length ∧
    (∀ i row, c.rows.get? i = some row →
      c.img_embs.get? i = some (clip.encode_image row.image_path) ∧
      c.txt_embs.get? i = some (clip.encode_text row.text)) ∧
    c.rows = (rows_csv.filter
        (fun r => fs (resolvePath dir r.image_path))).map
      (mkCatalogRow dir) := by
  match header with
  | none => simp [load_catalog] at h
  | some names =>
    simp only [load_catalog] at h
    by_cases hcols :
        ["sku_id", "title", "brand", "image_path"].all (names.contains ·)
    · rw [if_pos hcols] at h
      by_cases hemp : (buildTriple clip fs dir rows_csv).1.isEmpty
      · simp [hemp] at h
      · simp only [hemp, if_neg, Bool.false_eq_true, not_false_iff] at h
        cases h
        refine ⟨?_, ?_, ?_, buildTriple_rows clip fs dir rows_csv⟩
        · simp [buildTriple_img clip fs dir rows_csv]
        · simp [buildTriple_txt clip fs dir rows_csv]
        · intro i row hrow
          constructor
          · rw [buildTriple_img clip fs dir rows_csv, List.get?_map, hrow]
            rfl
          · rw [buildTriple_txt clip fs dir rows_csv, List.get?_map, hrow]
            rfl
    · rw [if_neg hcols] at h
      cases h

instance exceptDecEq {ε α : Type} [DecidableEq ε] [DecidableEq α] :
    DecidableEq (Except ε α) := fun x y =>
  match x, y with
  | .error a, .error b =>
    if h : a = b then isTrue (by rw [h])
    else isFalse (by intro hx; cases hx; exact h rfl)
  | .error _, .ok _ => isFalse (by intro hx; cases hx)
  | .ok _, .error _ => isFalse (by intro hx; cases hx)
  | .ok a, .ok b =>
    if h : a = b then isTrue (by rw [h])
    else isFalse (by intro hx; cases hx; exact h rfl)

/-- Concrete instantiation of the C1 theorem: a two-row csv whose second
image is missing builds a one-row aligned catalog. -/
def clipW : Clip String :=
  { encode_image := fun p => "img:" ++ p,
    encode_text := fun t => "txt:" ++ t }

def csvW : List CsvRow :=
  [{ sku_id := "s1", title := "Chair", brand := "Acme", image_path := "a.jpg" },
   { sku_id := "s2", title := "Desk", brand := "Acme", image_path := "missing.jpg" }]

def fsW : String → Bool := fun p => p == "catalog/a.jpg"

def catW : Catalog String :=
  { rows := [{ sku_id := "s1", title := "Chair", brand := "Acme",
               image_path := "catalog/a.jpg", text := "Acme Chair" }],
    img_embs := ["img:catalog/a.jpg"],
    txt_embs := ["txt:Acme Chair"] }

theorem c1_alignment_invariant_witness :
    load_catalog clipW fsW "catalog"
        (some ["sku_id", "title", "brand", "image_path"]) csvW = .ok catW ∧
    (catW.rows.length = catW.img_embs.length ∧
     catW.rows.length = catW.txt_embs.length ∧
     (∀ i row, catW.rows.get? i = some row →
       catW.img_embs.get? i = some (clipW.encode_image row.image_path) ∧
       catW.txt_embs.get? i = some (clipW.encode_text row.text)) ∧
     catW.rows = (csvW.filter
         (fun r => fsW (resolvePath "catalog" r.image_path))).map
       (mkCatalogRow "catalog")) :=
  ⟨by decide,
   c1_alignment_invariant clipW fsW "catalog"
     (some ["sku_id", "title", "brand", "image_path"]) csvW catW (by decide)⟩

/-! ## The `api.py` state and cache protocol

An embedding matrix is the list of its rows; entries are abstract numbers
modelled by `Int`. -/

abbrev Mat := List (List Int)

/-- Number of rows of the matrix (`shape[0]`). -/
def matRows (m : Mat) : Nat := m.length

/-- `shape[1]` of the (rectangular) 2-D array. -/
def matWidth (m : Mat) : Nat := (m.headD []).length

/-- The index-related fields of the module-level `state` object of
`api.py` (class `State`, lines 65-74). -/
structure ApiState where
  catalog_rows : List CatalogRow
  img_embs : Option Mat
  txt_embs : Option Mat
  embedding_dim : Option Int
deriving Repr, DecidableEq

/-- The `embedding_dim` entry of the manifest as seen by
`int(idx.get("embedding_dim", ...))` (line 120): the key may be absent
(the default `state.img_embs.shape[1]` is used), present with a value
`int(...)` accepts, or present with a value on which `int(...)` raises. -/
inductive DimField where
  | absent
  | val (d : Int)
  | bad
deriving Repr, DecidableEq

/-- One possible content of the cache directory, as observed by
`_try_load_cache`: whether each file exists, whether `np.load` /
`json.load` succeed on it, and the values of the keys the function
reads.  `none` for a key models a `KeyError` on access. -/
structure CacheContent where
  npz_exists : Bool
  idx_exists : Bool
  npz_ok : Bool
  idx_ok : Bool
  npz_img : Option Mat
  npz_txt : Option Mat
  idx_rows : Option (List CatalogRow)
  idx_dim : DimField
deriving Repr, DecidableEq

/-- `api._try_load_cache` (lines 108-124).  The source assigns the
`state` fields one by one inside the `try` block; an exception raised
at any point is caught and turned into `False`, with the assignments
already executed left in place.  The returned pair is
`(return value, state after the call)`. -/
def try_load_cache (c : CacheContent) (s : ApiState) : Bool × ApiState :=
  if !(c.npz_exists && c.idx_exists) then (false, s)
  else if !c.npz_ok then (false, s)
  else if !c.idx_ok then (false, s)
  else
    match c.npz_img with
    | none => (false, s)
    | some ie =>
      let s := { s with img_embs := some ie }
      match c.npz_txt with
      | none => (false, s)
      | some te =>
        let s := { s with txt_embs := some te }
        match c.idx_rows with
        | none => (false, s)
        | some rws =>
          let s := { s with catalog_rows := rws }
          match c.idx_dim with
          | .bad => (false, s)
          | .val d => (true, { s with embedding_dim := some d })
          | .absent => (true, { s with embedding_dim := some (matWidth ie : Int) })

/-- A cache whose matrices have two rows while the manifest lists one
row; every file exists and every deserialization step succeeds. -/
def cacheMismatch : CacheContent :=
  { npz_exists := true, idx_exists := true, npz_ok := true, idx_ok := true,
    npz_img := some [[0], [1]], npz_txt := some [[0], [1]],
    idx_rows := some [{ sku_id := "s1", title := "Chair", brand := "Acme",
                        image_path := "catalog/a.jpg", text := "Acme Chair" }],
    idx_dim := .val 1 }

/-- The empty index state (`State` defaults, lines 68-71). -/
def emptyState : ApiState :=
  { catalog_rows := [], img_embs := none, txt_embs := none,
    embedding_dim := none }

/-- C2 counterexample -- `_try_load_cache` accepts a cache whose matrix
row count (2) differs from the number of rows in the manifest (1): it
performs no row-count consistency check, so the claim that it returns
false on every such cache state is refuted at this concrete input. -/
theorem c2_counterexample_row_count_not_checked :
    (try_load_cache cacheMismatch emptyState).1 = true ∧
    (∃ m, cacheMismatch.npz_img = some m ∧ matRows m = 2) ∧
    (∃ rws, cacheMismatch.idx_rows = some rws ∧ rws.length = 1) := by
  refine ⟨by decide, ⟨[[0], [1]], by decide⟩, ⟨_, rfl, by decide⟩⟩

/-- C2 amended -- `_try_load_cache` returns true exactly when both cache
files exist, both deserialize, the `img_embs`, `txt_embs` and `rows`
keys are all present, and the `embedding_dim` conversion does not raise;
the row counts of the matrices are never compared with the manifest. -/
theorem c2_try_load_cache_success_iff (c : CacheContent) (s : ApiState) :
    (try_load_cache c s).1 = true ↔
      (c.npz_exists = true ∧ c.idx_exists = true ∧ c.npz_ok = true ∧
       c.idx_ok = true ∧ c.npz_img.isSome = true ∧
       c.npz_txt.isSome = true ∧ c.idx_rows.isSome = true ∧
       c.idx_dim ≠ .bad) := by
  obtain ⟨ne, ie, no, io, im, tx, rw, dm⟩ := c
  cases ne <;> cases ie <;> cases no <;> cases io <;>
    cases im <;> cases tx <;> cases rw <;> cases dm <;>
    simp [try_load_cache]

theorem c2_try_load_cache_success_iff_witness :
    (try_load_cache cacheMismatch emptyState).1 = true :=
  (c2_try_load_cache_success_iff cacheMismatch emptyState).mpr (by decide)

/-- A cache whose binary file deserializes and holds `img_embs` but no
`txt_embs` key: the failure happens after the first state assignment. -/
def cachePartial : CacheContent :=
  { npz_exists := true, idx_exists := true, npz_ok := true, idx_ok := true,
    npz_img := some [[5]], npz_txt := none, idx_rows := none,
    idx_dim := .absent }

/-- A previously populated index state. -/
def statePrev : ApiState :=
  { catalog_rows := [{ sku_id := "old", title := "Old", brand := "B",
                       image_path := "catalog/o.jpg", text := "B Old" }],
    img_embs := some [[7, 7]], txt_embs := some [[6, 6]],
    embedding_dim := some 2 }

/-- C3 counterexample -- when the cache npz holds `img_embs` but the
`txt_embs` key is missing, `_try_load_cache` returns false having
already overwritten `state.img_embs`: the resulting state differs from
the state before the call, so the no-partial-load claim is refuted at
this concrete input. -/
theorem c3_counterexample_partial_load :
    try_load_cache cachePartial statePrev =
      (false, { statePrev with img_embs := some [[5]] }) ∧
    ({ statePrev with img_embs := some [[5]] } : ApiState) ≠ statePrev := by
  exact ⟨by decide, by decide⟩

/-- C3 amended -- every failing run of `_try_load_cache` returns false,
and the state is unchanged exactly when the failure happens before the
first field assignment (a missing file, a `np.load` or `json.load`
error, or a missing `img_embs` key); a failure at a later step keeps the
values already assigned, giving a partial load.  The four conjuncts
enumerate the failing paths in source order. -/
theorem c3_failure_returns_false_partial_state (c : CacheContent)
    (s : ApiState) :
    ((c.npz_exists = false ∨ c.idx_exists = false ∨ c.npz_ok = false ∨
      c.idx_ok = false ∨ c.npz_img = none) →
      try_load_cache c s = (false, s)) ∧
    (c.npz_exists = true → c.idx_exists = true → c.npz_ok = true →
      c.idx_ok = true → ∀ m, c.npz_img = some m → c.npz_txt = none →
      try_load_cache c s = (false, { s with img_embs := some m })) ∧
    (c.npz_exists = true → c.idx_exists = true → c.npz_ok = true →
      c.idx_ok = true → ∀ m t, c.npz_img = some m → c.npz_txt = some t →
      c.idx_rows = none →
      try_load_cache c s =
        (false, { s with img_embs := some m, txt_embs := some t })) ∧
    (c.npz_exists = true → c.idx_exists = true → c.npz_ok = true →
      c.idx_ok = true → ∀ m t rws, c.npz_img = some m →
      c.npz_txt = some t → c.idx_rows = some rws → c.idx_dim = .bad →
      try_load_cache c s =
        (false, { s with img_embs := some m, txt_embs := some t,
                         catalog_rows := rws })) := by
  refine ⟨?_, ?_, ?_, ?_⟩
  · rintro (h | h | h | h | h) <;> simp [try_load_cache, h]
  · intro h1 h2 h3 h4 m hm ht
    simp [try_load_cache, h1, h2, h3, h4, hm, ht]
  · intro h1 h2 h3 h4 m t hm ht hr
    simp [try_load_cache, h1, h2, h3, h4, hm, ht, hr]
  · intro h1 h2 h3 h4 m t rws hm ht hr hd
    simp [try_load_cache, h1, h2, h3, h4, hm, ht, hr, hd]

/-- Witness for the amended C3 theorem: a cache with a corrupt npz file
fails with the state exactly unchanged. -/
def cacheCorrupt : CacheContent :=
  { npz_exists := true, idx_exists := true, npz_ok := false,
    idx_ok := true, npz_img := none, npz_txt := none, idx_rows := none,
    idx_dim := .absent }

theorem c3_failure_returns_false_partial_state_witness :
    try_load_cache cacheCorrupt statePrev = (false, statePrev) :=
  (c3_failure_returns_false_partial_state cacheCorrupt statePrev).1
    (Or.inr (Or.inr (Or.inl rfl)))

/-! ## `api._build_catalog` and the rebuild protocol -/

/-- The dictionary returned by `_build_catalog` (lines 128-133 and
142-147); `updated_at` and the message are irrelevant here. -/
structure BuildReport where
  status : String
  catalog_size : Nat
  embedding_dim : Option Int
deriving Repr, DecidableEq

/-- `api._build_catalog` (lines 126-147).  In the source,
`if not force and _try_load_cache():` short-circuits, so the cache load
and its state mutation happen only when `force` is false.  On the build
path the four `state` fields are assigned one after the other
(lines 136-139).  A `load_catalog` exception propagates to the caller
with the state as the cache attempt left it.  `_save_cache` writes to
disk only and does not touch the index state, so it is not modelled. -/
def build_catalog (clip : Clip (List Int)) (fs : String → Bool)
    (dir : String) (header : Option (List String))
    (rows_csv : List CsvRow) (cache : CacheContent) (force : Bool)
    (s : ApiState) : Except BuildErr BuildReport × ApiState :=
  let (ok, s1) := if force then (false, s) else try_load_cache cache s
  if ok then
    (.ok { status := "loaded", catalog_size := s1.catalog_rows.length,
           embedding_dim := s1.embedding_dim }, s1)
  else
    match load_catalog clip fs dir header rows_csv with
    | .error e => (.error e, s1)
    | .ok cat =>
      let s2 := { s1 with catalog_rows := cat.rows }
      let s3 := { s2 with img_embs := some cat.img_embs }
      let s4 := { s3 with txt_embs := some cat.txt_embs }
      let s5 := { s4 with embedding_dim := some (matWidth cat.img_embs : Int) }
      (.ok { status := "success", catalog_size := s5.catalog_rows.length,
             embedding_dim := s5.embedding_dim }, s5)

/-- The successive states of the shared `state` object along the four
assignments of the build path (lines 136-139), starting from the state
before the first assignment.  A concurrent reader of the module-level
`state` can observe any element of this list. -/
def build_assign_states (s : ApiState) (cat : Catalog (List Int)) :
    List ApiState :=
  let s2 := { s with catalog_rows := cat.rows }
  let s3 := { s2 with img_embs := some cat.img_embs }
  let s4 := { s3 with txt_embs := some cat.txt_embs }
  let s5 := { s4 with embedding_dim := some (matWidth cat.img_embs : Int) }
  [s, s2, s3, s4, s5]

/-- The build path of `build_catalog` ends in the last state of the
assignment trace. -/
theorem build_catalog_final_state (clip : Clip (List Int))
    (fs : String → Bool) (dir : String) (header : Option (List String))
    (rows_csv : List CsvRow) (cache : CacheContent) (s : ApiState)
    (cat : Catalog (List Int))
    (h : load_catalog clip fs dir header rows_csv = .ok cat) :
    (build_catalog clip fs dir header rows_csv cache true s).2 =
      (build_assign_states s cat).getLastD s := by
  simp [build_catalog, h, build_assign_states]

/-- An old populated state and a new catalog for the C4 refutation. -/
def stateOld : ApiState :=
  { catalog_rows := [{ sku_id := "old", title := "Old", brand := "B",
                       image_path := "catalog/o.jpg", text := "B Old" }],
    img_embs := some [[1, 0]], txt_embs := some [[0, 1]],
    embedding_dim := some 2 }

def catNew : Catalog (List Int) :=
  { rows := [{ sku_id := "new", title := "New", brand := "B",
               image_path := "catalog/n.jpg", text := "B New" }],
    img_embs := [[9, 9]], txt_embs := [[8, 8]] }

/-- The state after all four assignments of the build path. -/
def stateNewFull : ApiState :=
  { catalog_rows := catNew.rows, img_embs := some catNew.img_embs,
    txt_embs := some catNew.txt_embs, embedding_dim := some 2 }

/-- C4 counterexample -- the rebuild is not a single atomic swap: the
state reached after the first of the four assignments is observable,
differs from both the pre-rebuild state and the fully rebuilt state, and
combines the new row metadata with the old embedding matrices. -/
theorem c4_counterexample_mixed_state_observable :
    ({ stateOld with catalog_rows := catNew.rows } : ApiState) ∈
        build_assign_states stateOld catNew ∧
    ({ stateOld with catalog_rows := catNew.rows } : ApiState) ≠ stateOld ∧
    ({ stateOld with catalog_rows := catNew.rows } : ApiState) ≠
        stateNewFull ∧
    ({ stateOld with catalog_rows := catNew.rows } : ApiState).catalog_rows
        = catNew.rows ∧
    ({ stateOld with catalog_rows := catNew.rows } : ApiState).img_embs
        = stateOld.img_embs := by
  refine ⟨by decide, by decide, by decide, rfl, rfl⟩

/-- C4 amended -- a rebuild updates the shared state by four successive
field assignments (rows, then img_embs, then txt_embs, then
embedding_dim) rather than one atomic swap: the trace starts at the
pre-rebuild state and ends in the state holding the complete new triple
(which is the state `_build_catalog` returns), but the state after the
first assignment carries the new row metadata while `img_embs` and
`txt_embs` still hold the old matrices. -/
theorem c4_rebuild_assigns_fields_in_sequence (s : ApiState)
    (cat : Catalog (List Int)) (clip : Clip (List Int))
    (fs : String → Bool) (dir : String) (header : Option (List String))
    (rows_csv : List CsvRow) (cache : CacheContent)
    (h : load_catalog clip fs dir header rows_csv = .ok cat) :
    (build_assign_states s cat).head? = some s ∧
    (build_assign_states s cat).getLastD s =
      { catalog_rows := cat.rows, img_embs := some cat.img_embs,
        txt_embs := some cat.txt_embs,
        embedding_dim := some (matWidth cat.img_embs : Int) } ∧
    (build_catalog clip fs dir header rows_csv cache true s).2 =
      (build_assign_states s cat).getLastD s ∧
    (build_assign_states s cat).get? 1 =
      some { s with catalog_rows := cat.rows } ∧
    ∀ t, (build_assign_states s cat).get? 1 = some t →
      t.catalog_rows = cat.rows ∧ t.img_embs = s.img_embs ∧
      t.txt_embs = s.txt_embs := by
  refine ⟨rfl, rfl,
    build_catalog_final_state clip fs dir header rows_csv cache s cat h,
    rfl, ?_⟩
  intro t ht
  simp only [build_assign_states, List.get?] at ht
  cases ht
  exact ⟨rfl, rfl, rfl⟩

/-- An encoder over `Int` vectors and a one-row csv that build exactly
`catNew`. -/
def clipInts : Clip (List Int) :=
  { encode_image := fun _ => [9, 9], encode_text := fun _ => [8, 8] }

def csvNew : List CsvRow :=
  [{ sku_id := "new", title := "New", brand := "B", image_path := "n.jpg" }]

theorem c4_rebuild_assigns_fields_in_sequence_witness :
    (build_assign_states stateOld catNew).head? = some stateOld ∧
    (build_catalog clipInts (fun _ => true) "catalog"
        (some ["sku_id", "title", "brand", "image_path"]) csvNew
        cacheCorrupt true stateOld).2 =
      (build_assign_states stateOld catNew).getLastD stateOld :=
  have h := c4_rebuild_assigns_fields_in_sequence stateOld catNew clipInts
    (fun _ => true) "catalog" (some ["sku_id", "title", "brand", "image_path"])
    csvNew cacheCorrupt (by decide)
  ⟨h.1, h.2.2.1⟩

/-! ## C9: the all-rows-skipped build -/

/-- When every csv row has an unresolvable image, `load_catalog` raises
the catalog-empty error instead of returning an index with zero rows. -/
theorem load_catalog_all_skipped {V : Type} (clip : Clip V)
    (fs : String → Bool) (dir : String) (names : List String)
    (rows_csv : List CsvRow)
    (hcols : (["sku_id", "title", "brand",
        "image_path"].all (names.contains ·)) = true)
    (hskip : ∀ r ∈ rows_csv, fs (resolvePath dir r.image_path) = false) :
    load_catalog clip fs dir (some names) rows_csv = .error .catalogEmpty := by
  have hfil : rows_csv.filter
      (fun r => fs (resolvePath dir r.image_path)) = [] := by
    rw [List.filter_eq_nil]
    intro r hr
    simp [hskip r hr]
  have hrows := buildTriple_rows clip fs dir rows_csv
  rw [hfil, List.map_nil] at hrows
  simp only [load_catalog]
  rw [if_pos hcols]
  simp [hrows]

/-- C9 counterexample -- with `force` false, a cache whose npz holds
`img_embs` but lacks `txt_embs`, and a csv whose only image is missing,
the rebuild does fail with the catalog-empty error, but the state it
leaves behind differs from the previously active one: the failed cache
attempt has already overwritten `img_embs`, so the claim that the
previous index state is left unchanged is refuted at this concrete
input. -/
theorem c9_counterexample_state_mutated_before_empty_failure :
    build_catalog clipInts (fun _ => false) "catalog"
        (some ["sku_id", "title", "brand", "image_path"]) csvNew
        cachePartial false statePrev =
      (.error .catalogEmpty, { statePrev with img_embs := some [[5]] }) ∧
    ({ statePrev with img_embs := some [[5]] } : ApiState) ≠ statePrev := by
  exact ⟨by decide, by decide⟩

/-- C9 amended -- if zero csv rows survive image resolution, the build
fails with the catalog-empty error rather than producing an index with
zero rows, and the build step itself does not touch the index state:
when `force` is true (the cache attempt is short-circuited away), or
when the cache files are absent so that the cache attempt performs no
assignment, the previously active state is returned exactly unchanged.
(The remaining case, a failing cache attempt that has already assigned
fields, is the partial mutation established by the C3 analysis.) -/
theorem c9_empty_build_fails_state_preserved (clip : Clip (List Int))
    (fs : String → Bool) (dir : String) (names : List String)
    (rows_csv : List CsvRow) (cache : CacheContent) (s : ApiState)
    (hcols : (["sku_id", "title", "brand",
        "image_path"].all (names.contains ·)) = true)
    (hskip : ∀ r ∈ rows_csv, fs (resolvePath dir r.image_path) = false) :
    build_catalog clip fs dir (some names) rows_csv cache true s =
      (.error .catalogEmpty, s) ∧
    (cache.npz_exists = false ∨ cache.idx_exists = false →
      build_catalog clip fs dir (some names) rows_csv cache false s =
        (.error .catalogEmpty, s)) := by
  have hload := load_catalog_all_skipped clip fs dir names rows_csv
    hcols hskip
  constructor
  · simp [build_catalog, hload]
  · intro hmiss
    have hcache : try_load_cache cache s = (false, s) := by
      rcases hmiss with h | h <;> simp [try_load_cache, h]
    simp [build_catalog, hcache, hload]

theorem c9_empty_build_fails_state_preserved_witness :
    build_catalog clipInts (fun _ => false) "catalog"
        (some ["sku_id", "title", "brand", "image_path"]) csvNew
        cachePartial true statePrev = (.error .catalogEmpty, statePrev) :=
  (c9_empty_build_fails_state_preserved clipInts (fun _ => false) "catalog"
    ["sku_id", "title", "brand", "image_path"] csvNew cachePartial statePrev
    (by decide) (by decide)).1

/-! ## Scoring: fusion, argsort and the top-k slice

Scores are floating point numbers in the source; they are modelled by
exact rationals. -/

/-- `score = alpha_img * s_img + (1 - alpha_img) * s_txt`
(`api.py` line 229), pointwise over the two score vectors. -/
def fuseScores (alpha : ℚ) (s_img s_txt : List ℚ) : List ℚ :=
  List.zipWith (fun a b => alpha * a + (1 - alpha) * b) s_img s_txt

/-- Index `i` scores at least as high as index `j` (out-of-range indices
read 0, which never happens for indices produced by `argsortDesc`). -/
def scoreGE (score : List ℚ) (i j : Nat) : Prop :=
  score.getD j 0 ≤ score.getD i 0

instance (score : List ℚ) : DecidableRel (scoreGE score) := fun i j =>
  inferInstanceAs (Decidable (score.getD j 0 ≤ score.getD i 0))

/-- Model of `np.argsort(-score)` (line 231): the indices `0..n-1`
ordered by descending score.  NumPy leaves the relative order of equal
scores unspecified for its default sort kind; this model fixes one
concrete order (a stable insertion sort).  No claim theorem below
depends on the tie order. -/
def argsortDesc (score : List ℚ) : List Nat :=
  List.insertionSort (scoreGE score) (List.range score.length)

/-- Python slice `lst[:k]` with an arbitrary integer `k`, as applied to
the argsort result by `np.argsort(-score)[: int(topk)]` (line 231): a
nonnegative `k` takes the first `min k n` elements; a negative `k`
stops `-k` elements before the end, clamped below at zero. -/
def pySliceTo (l : List Nat) (k : Int) : List Nat :=
  if 0 ≤ k then l.take k.toNat else l.take (l.length - (-k).toNat)

/-- The selection `idx = np.argsort(-score)[: int(topk)]` (line 231). -/
def topk_select (score : List ℚ) (k : Int) : List Nat :=
  pySliceTo (argsortDesc score) k

theorem argsortDesc_perm (score : List ℚ) :
    (argsortDesc score).Perm (List.range score.length) :=
  List.perm_insertionSort (scoreGE score) (List.range score.length)

theorem argsortDesc_length (score : List ℚ) :
    (argsortDesc score).length = score.length := by
  rw [(argsortDesc_perm score).length_eq, List.length_range]

theorem argsortDesc_sorted (score : List ℚ) :
    List.Sorted (scoreGE score) (argsortDesc score) :=
  have : IsTotal Nat (scoreGE score) :=
    ⟨fun i j => (le_total (score.getD j 0) (score.getD i 0)).imp id id⟩
  have : IsTrans Nat (scoreGE score) :=
    ⟨fun _ _ _ hab hbc => le_trans hbc hab⟩
  List.sorted_insertionSort (scoreGE score) (List.range score.length)

/-- C7 counterexample -- for the two-row score vector `[1, 2]` and the
caller-supplied `k = -1`, the selection returns one index, not the
empty list the claim predicts for a `k` clamped to `[0, N]`: Python
slice semantics give `max(N + k, 0)` entries for negative `k`. -/
theorem c7_counterexample_negative_k :
    topk_select [1, 2] (-1) = [1] ∧
    (topk_select [1, 2] (-1)).length = 1 := by
  exact ⟨by decide, by decide⟩

/-- C7 amended -- for every score vector of length `N` and
caller-supplied `k`: a nonnegative `k` yields `min k N` indices (so
exactly `N` for any `k ≥ N` and none for `k = 0`), while a negative `k`
follows Python slice semantics and yields `N - min N (-k)` indices
rather than clamping to 0; the selection is always a subsequence of a
permutation of `0..N-1` arranged in descending fused-score order. -/
theorem c7_topk_bounds (score : List ℚ) (k : Int) :
    (0 ≤ k → (topk_select score k).length = min k.toNat score.length) ∧
    (k < 0 →
      (topk_select score k).length = score.length - (-k).toNat) ∧
    List.Sorted (scoreGE score) (topk_select score k) ∧
    (argsortDesc score).Perm (List.range score.length) ∧
    ((score.length : Int) ≤ k → topk_select score k = argsortDesc score) := by
  refine ⟨?_, ?_, ?_, argsortDesc_perm score, ?_⟩
  · intro hk
    simp [topk_select, pySliceTo, hk, List.length_take, argsortDesc_length]
  · intro hk
    have hk2 : ¬(0 ≤ k) := by omega
    simp only [topk_select, pySliceTo, hk2, if_false, List.length_take,
      argsortDesc_length]
    omega
  · have hsub : (topk_select score k).Sublist (argsortDesc score) := by
      unfold topk_select pySliceTo
      split <;> exact List.take_sublist _ _
    exact List.Pairwise.sublist hsub (argsortDesc_sorted score)
  · intro hk
    have h0 : 0 ≤ k := le_trans (by positivity) hk
    have hlen : (argsortDesc score).length ≤ k.toNat := by
      rw [argsortDesc_length]; omega
    simp [topk_select, pySliceTo, h0, List.take_of_length_le hlen]

theorem c7_topk_bounds_witness :
    (topk_select [3, 1, 2] 5).length = min (5 : Int).toNat 3 ∧
    topk_select [3, 1, 2] 5 = argsortDesc [3, 1, 2] ∧
    (topk_select [3, 1, 2] 0).length = min (0 : Int).toNat 3 :=
  ⟨((c7_topk_bounds [3, 1, 2] 5).1 (by decide)).trans (by decide),
   (c7_topk_bounds [3, 1, 2] 5).2.2.2.2 (by decide),
   ((c7_topk_bounds [3, 1, 2] 0).1 (by decide)).trans (by decide)⟩

/-! ## The `/recommend` route (`api.py` lines 204-261) -/

/-- One detected instance as the route consumes it (the dictionaries
produced by `detect_instances`); the cropped region is identified by an
abstract id and encoded by the `encodeCrop` parameter below. -/
structure DetInstance where
  bbox : List Int
  label : String
  conf : ℚ
  cropId : Nat
deriving Repr, DecidableEq

/-- One entry of the `recos` list (lines 235-241). -/
structure Reco where
  sku_id : String
  title : String
  brand : String
  image_url : String
  score : ℚ
deriving Repr, DecidableEq

/-- One entry of the `results` list (lines 243-249). -/
structure InstanceResult where
  bbox : List Int
  label : String
  det_conf : ℚ
  top_k : List Reco
  top1 : Option Reco
deriving Repr, DecidableEq

/-- Observable outcome of one `/recommend` request: the HTTP status,
the files written to disk in chronological order, and the response
fields. -/
structure RecoOutcome where
  status : Nat
  writes : List String
  image_url : Option String
  vis_url : Option String
  instances : List InstanceResult
deriving Repr, DecidableEq

/-- `Path.stem` of a single-component file name: the name without its
last dot-suffix (a leading dot does not start a suffix). -/
def pathStem (s : String) : String :=
  let r := s.data.reverse
  let ext := r.takeWhile (· ≠ '.')
  if ext.length + 2 ≤ r.length then ⟨(r.drop (ext.length + 1)).reverse⟩
  else s

/-- `f"{stamp}_{image.filename}"` (line 216). -/
def uploadName (stamp : Nat) (filename : String) : String :=
  toString stamp ++ "_" ++ filename

/-- The `recos` list built for one instance (lines 231-241): the rows of
the catalog at the selected indices.  An index beyond the row list
(impossible for an aligned index, an `IndexError` in the source) is
modelled as skipped. -/
def instanceRecos (rows : List CatalogRow) (score : List ℚ)
    (topk : Int) : List Reco :=
  (topk_select score topk).filterMap (fun j =>
    (rows.get? j).map (fun row =>
      { sku_id := row.sku_id, title := row.title, brand := row.brand,
        image_url := row.image_path, score := score.getD j 0 }))

/-- The body of `api.recommend` (lines 204-261).  `sim` stands for
`cos_sim` applied to the float matrices (scores become rationals),
`encodeCrop` for `state.clip.encode_image` on the cropped region, and
`instances` for the output of `detect_instances` on the saved upload.
The catalog-readiness check (lines 211-212) runs before the upload is
saved (lines 215-218); the upload write precedes the optional
visualization write (lines 251-255). -/
def recommend (s : ApiState) (sim : List Int → Mat → List ℚ)
    (encodeCrop : Nat → List Int) (instances : List DetInstance)
    (stamp : Nat) (filename : String) (topk : Int) (alpha : ℚ)
    (return_vis : Bool) : RecoOutcome :=
  match s.img_embs, s.txt_embs with
  | some ib, some tb =>
    let upName := uploadName stamp filename
    let results := instances.map (fun inst =>
      let emb := encodeCrop inst.cropId
      let score := fuseScores alpha (sim emb ib) (sim emb tb)
      let recos := instanceRecos s.catalog_rows score topk
      { bbox := inst.bbox, label := inst.label, det_conf := inst.conf,
        top_k := recos, top1 := recos.head? })
    let visName := pathStem upName ++ "_vis.jpg"
    let visWrites :=
      if return_vis && !results.isEmpty then ["runs/" ++ visName] else []
    { status := 200,
      writes := ("runs/uploads/" ++ upName) :: visWrites,
      image_url := some ("/runs/uploads/" ++ upName),
      vis_url := if return_vis && !results.isEmpty
                 then some ("/runs/" ++ visName) else none,
      instances := results }
  | _, _ =>
    { status := 400, writes := [], image_url := none, vis_url := none,
      instances := [] }

theorem isEmpty_map {α β : Type} (f : α → β) (l : List α) :
    (l.map f).isEmpty = l.isEmpty := by
  cases l <;> rfl

/-- C5 counterexample -- when the index is unpopulated, the route
returns the catalog-not-ready error before saving the upload: no file
is written, refuting the claim that the upload artifact is persisted
before any other processing and survives a `CatalogNotReady` failure. -/
theorem c5_counterexample_no_artifact_when_not_ready :
    (recommend emptyState (fun _ _ => []) (fun _ => []) [] 1700000000000
        "query.jpg" 3 (7 / 10) true).status = 400 ∧
    (recommend emptyState (fun _ _ => []) (fun _ => []) [] 1700000000000
        "query.jpg" 3 (7 / 10) true).writes = [] := by
  exact ⟨rfl, rfl⟩

/-- C5 amended -- the catalog-readiness check precedes the upload write:
when the index is unpopulated the request fails with status 400 and no
file is written; when the index is populated the upload is persisted
under its request-unique timestamp-based name as the first write of the
request, before the only other write (the optional visualization). -/
theorem c5_upload_write_order (s : ApiState)
    (sim : List Int → Mat → List ℚ) (encodeCrop : Nat → List Int)
    (instances : List DetInstance) (stamp : Nat) (filename : String)
    (topk : Int) (alpha : ℚ) (return_vis : Bool) :
    (s.img_embs = none ∨ s.txt_embs = none →
      (recommend s sim encodeCrop instances stamp filename topk alpha
          return_vis).status = 400 ∧
      (recommend s sim encodeCrop instances stamp filename topk alpha
          return_vis).writes = []) ∧
    (∀ ib tb, s.img_embs = some ib → s.txt_embs = some tb →
      (recommend s sim encodeCrop instances stamp filename topk alpha
          return_vis).status = 200 ∧
      (recommend s sim encodeCrop instances stamp filename topk alpha
          return_vis).writes =
        ("runs/uploads/" ++ uploadName stamp filename) ::
          (if return_vis && !instances.isEmpty
           then ["runs/" ++ (pathStem (uploadName stamp filename)
                   ++ "_vis.jpg")]
           else [])) := by
  constructor
  · intro h
    have : recommend s sim encodeCrop instances stamp filename topk alpha
        return_vis =
      { status := 400, writes := [], image_url := none, vis_url := none,
        instances := [] } := by
      rcases h with h | h <;> rcases hib : s.img_embs with _ | ib <;>
        rcases hit : s.txt_embs with _ | tb <;>
        simp_all [recommend]
    rw [this]
    exact ⟨rfl, rfl⟩
  · intro ib tb hib htb
    constructor
    · simp [recommend, hib, htb]
    · simp [recommend, hib, htb, isEmpty_map]

theorem c5_upload_write_order_witness :
    (recommend statePrev (fun _ _ => []) (fun _ => []) [] 42 "q.jpg" 3
        (7 / 10) true).status = 200 ∧
    (recommend statePrev (fun _ _ => []) (fun _ => []) [] 42 "q.jpg" 3
        (7 / 10) true).writes = ["runs/uploads/" ++ uploadName 42 "q.jpg"] :=
  have h := (c5_upload_write_order statePrev (fun _ _ => []) (fun _ => [])
    [] 42 "q.jpg" 3 (7 / 10) true).2 [[7, 7]] [[6, 6]] rfl rfl
  ⟨h.1, h.2.trans (by decide)⟩

/-! ## The `/catalog/query` route (`api.py` lines 184-202)

The claim concerns a populated catalog, so the initial best-effort build
for an empty one (lines 186-187) is outside the modelled path; the
lookup loop itself runs on whatever `state.catalog_rows` holds. -/

/-- One entry of the `items` list (lines 194-199). -/
structure QueryItem where
  sku_id : String
  title : String
  brand : String
  image_url : String
deriving Repr, DecidableEq

/-- `rows_by_id = {r["sku_id"]: r for r in state.catalog_rows}` followed
by `rows_by_id.get(str(sid))` (lines 189 and 192).  In the dict
comprehension a later row overwrites an earlier one with the same key,
so the lookup yields the last matching row. -/
def rows_by_id (rows : List CatalogRow) (sid : String) :
    Option CatalogRow :=
  rows.reverse.find? (fun r => r.sku_id == sid)

/-- The dictionary appended to `items` for a found row. -/
def mkQueryItem (r : CatalogRow) : QueryItem :=
  { sku_id := r.sku_id, title := r.title, brand := r.brand,
    image_url := r.image_path }

/-- The lookup loop of `catalog_query` (lines 190-202): each requested
id contributes, in request order, either one `items` entry (when a row
with that `sku_id` exists) or one `missing` entry. -/
def catalog_query (rows : List CatalogRow) :
    List String → List QueryItem × List String
  | [] => ([], [])
  | sid :: rest =>
    match rows_by_id rows sid with
    | some r => (mkQueryItem r :: (catalog_query rows rest).1,
                 (catalog_query rows rest).2)
    | none => ((catalog_query rows rest).1,
               sid :: (catalog_query rows rest).2)

theorem rows_by_id_spec (rows : List CatalogRow) (sid : String)
    (r : CatalogRow) (h : rows_by_id rows sid = some r) :
    r ∈ rows ∧ r.sku_id = sid := by
  unfold rows_by_id at h
  refine ⟨List.mem_reverse.mp (List.mem_of_find?_eq_some h), ?_⟩
  have hp := List.find?_some h
  simpa using hp

/-- C10 -- `catalog_query` partitions the request: the `items` list is
exactly the request ids resolved through the catalog (in request
order, carrying the title, brand and image path of the found row), the
`missing` list is exactly the unresolved ids (in request order), the
two lengths sum to the number of requested ids, and every resolved id
maps to a catalog row bearing that `sku_id`. -/
theorem c10_catalog_query_partition (rows : List CatalogRow)
    (ids : List String) :
    (catalog_query rows ids).1.length +
        (catalog_query rows ids).2.length = ids.length ∧
    (catalog_query rows ids).1 =
      ids.filterMap (fun sid => (rows_by_id rows sid).map mkQueryItem) ∧
    (catalog_query rows ids).2 =
      ids.filter (fun sid => (rows_by_id rows sid).isNone) ∧
    (∀ sid r, rows_by_id rows sid = some r →
      r ∈ rows ∧ r.sku_id = sid) := by
  refine ⟨?_, ?_, ?_, fun sid r h => rows_by_id_spec rows sid r h⟩
  · induction ids with
    | nil => rfl
    | cons sid rest ih =>
      simp only [catalog_query]
      cases h : rows_by_id rows sid <;> simp [h] <;> omega
  · induction ids with
    | nil => rfl
    | cons sid rest ih =>
      simp only [catalog_query, List.filterMap_cons]
      cases h : rows_by_id rows sid <;> simp [h, ih]
  · induction ids with
    | nil => rfl
    | cons sid rest ih =>
      simp only [catalog_query, List.filter_cons]
      cases h : rows_by_id rows sid <;> simp [h, ih]

/-- Witness data: a two-row catalog (with a duplicate id) and a request
mixing present, duplicate and absent ids. -/
def rowsQ : List CatalogRow :=
  [{ sku_id := "a", title := "First", brand := "B1",
     image_path := "catalog/1.jpg", text := "B1 First" },
   { sku_id := "a", title := "Second", brand := "B2",
     image_path := "catalog/2.jpg", text := "B2 Second" },
   { sku_id := "c", title := "Third", brand := "B3",
     image_path := "catalog/3.jpg", text := "B3 Third" }]

theorem c10_catalog_query_partition_witness :
    (catalog_query rowsQ ["a", "x", "c", "a"]).1.length +
        (catalog_query rowsQ ["a", "x", "c", "a"]).2.length = 4 ∧
    (catalog_query rowsQ ["a", "x", "c", "a"]).1 =
      ["a", "x", "c", "a"].filterMap
        (fun sid => (rows_by_id rowsQ sid).map mkQueryItem) ∧
    (rows_by_id rowsQ "a").map (fun r => r.title) = some "Second" :=
  have h := c10_catalog_query_partition rowsQ ["a", "x", "c", "a"]
  ⟨h.1, h.2.1, by decide⟩

/-! ## `mvp_reco.cos_sim` (lines 154-156)

The float arithmetic is modelled over the real numbers; the tolerance claim of the spec is stated with an explicit error bound. -/

/-- Dot product `b_i @ a` of two vectors. -/
def dotList (a b : List ℝ) : ℝ := (List.zipWith (· * ·) a b).sum

/-- `np.linalg.norm`: the Euclidean norm of a vector. -/
noncomputable def l2norm (v : List ℝ) : ℝ :=
  Real.sqrt ((v.map (fun x => x ^ 2)).sum)

/-- `cos_sim(a, b) = (b @ a) / (np.linalg.norm(b, axis=1) *
np.linalg.norm(a) + 1e-8)` applied row-wise: entry `i` is the dot
product of row `i` of the bank with the query, divided by the product
of their norms plus the epsilon. -/
noncomputable def cos_sim (a : List ℝ) (b : List (List ℝ)) : List ℝ :=
  b.map (fun bi => dotList bi a / (l2norm bi * l2norm a + 1 / 10 ^ 8))

/-- C8 -- `cos_sim` computes, for every row of the bank, the dot
product with the query divided by the product of the norms plus the
`1e-8` epsilon, and on the concrete input of the spec,
`cos_sim([1,0], [[1,0],[1,1]])`, the two entries are within `1e-4`
of `1` and `1/sqrt 2` respectively. -/
theorem c8_cos_sim_formula_and_example (a : List ℝ) (b : List (List ℝ)) :
    (∀ i bi, b.get? i = some bi →
      (cos_sim a b).get? i =
        some (dotList bi a / (l2norm bi * l2norm a + 1 / 10 ^ 8))) ∧
    |(cos_sim [1, 0] [[1, 0], [1, 1]]).getD 0 0 - 1| ≤ 1 / 10 ^ 4 ∧
    |(cos_sim [1, 0] [[1, 0], [1, 1]]).getD 1 0 - 1 / Real.sqrt 2| ≤
      1 / 10 ^ 4 := by
  have hn1 : l2norm [1, 0] = 1 := by
    simp [l2norm]
  have hn2 : l2norm [1, 1] = Real.sqrt 2 := by
    norm_num [l2norm]
  have hs2 : Real.sqrt 2 * Real.sqrt 2 = 2 :=
    Real.mul_self_sqrt (by norm_num)
  have hs1 : (1 : ℝ) ≤ Real.sqrt 2 := by
    nlinarith [Real.sqrt_nonneg 2]
  refine ⟨?_, ?_, ?_⟩
  · intro i bi hbi
    rw [cos_sim, List.get?_map, hbi]
    rfl
  · have : (cos_sim [1, 0] [[1, 0], [1, 1]]).getD 0 0 =
        1 / (1 + 1 / 10 ^ 8) := by
      simp [cos_sim, dotList, hn1]
    rw [this]
    rw [abs_of_nonpos (by norm_num)]
    norm_num
  · have : (cos_sim [1, 0] [[1, 0], [1, 1]]).getD 1 0 =
        1 / (Real.sqrt 2 + 1 / 10 ^ 8) := by
      simp [cos_sim, dotList, hn1, hn2]
    rw [this]
    have hpos : (0 : ℝ) < Real.sqrt 2 := by linarith
    have hpos2 : (0 : ℝ) < Real.sqrt 2 + 1 / 10 ^ 8 := by linarith
    have hle : 1 / (Real.sqrt 2 + 1 / 10 ^ 8) ≤ 1 / Real.sqrt 2 := by
      apply one_div_le_one_div_of_le hpos
      linarith
    rw [abs_of_nonpos (by linarith)]
    have key : 1 / Real.sqrt 2 - 1 / (Real.sqrt 2 + 1 / 10 ^ 8) =
        (1 / 10 ^ 8) / (Real.sqrt 2 * (Real.sqrt 2 + 1 / 10 ^ 8)) := by
      field_simp
    rw [neg_sub, key, div_le_iff (by positivity)]
    nlinarith

theorem c8_cos_sim_formula_and_example_witness :
    (cos_sim [1, 0] [[1, 0], [1, 1]]).get? 0 =
      some (dotList [1, 0] [1, 0] /
        (l2norm [1, 0] * l2norm [1, 0] + 1 / 10 ^ 8)) :=
  (c8_cos_sim_formula_and_example [1, 0] [[1, 0], [1, 1]]).1 0 [1, 0] rfl

end Pic2Product
